import Mathlib

/-!
Verification development for the DailyTech Azure Function repository.

The file shallowly embeds the parts of the Python source that the design
specification talks about:

* `shared/storage_utils.py` — the object store gateway
  (upload_blob_with_container_creation and its async twin
  upload_blob_async, which have identical logic);
* `blueprints/arxiv/batch_upload.py` — the batch upload scheduler
  (upload_single_article, upload_with_semaphore,
  batch_upload_articles_async, run_batch_upload_sync);
* `blueprints/arxiv/functions.py` — the feed normalizer part of
  parse_and_store_articles;
* `blueprints/abstractParse/functions.py` — simplify_article_description.

External collaborators (the Azure blob SDK, the asyncio semaphore, the
OpenAI client, feedparser) are modelled by their documented behaviour:
uploads to a missing container fail with a message containing the phrase
"The specified container does not exist", create_container on an
already existing container raises ResourceExistsError, an asyncio
semaphore admits at most its initial count of concurrent holders, and
so on.  Failure of a collaborator call is represented by an explicit
environment value rather than an exception.
-/

namespace DailyTech

/-! ### String helpers

Python tests membership of one string in another with the `in` operator
and peels the last piece of a split with `split(sep)[-1]`.  The helpers
below give those operations executable Lean counterparts over the
underlying character lists.  -/

/-- Does the character list begin with the given pattern?  -/
def seqStartsWith : List Char → List Char → Bool
  | _, [] => true
  | [], _ :: _ => false
  | x :: xs, y :: ys => x == y && seqStartsWith xs ys

/-- Does the character list contain the pattern as a contiguous run?  -/
def seqContains : List Char → List Char → Bool
  | [], pat => pat.isEmpty
  | s@(_ :: rest), pat => seqStartsWith s pat || seqContains rest pat

/-- Python `pat in s` on strings.  -/
def strContains (s pat : String) : Bool :=
  seqContains s.data pat.data

/-- Python `s.split(sep)[-1]`: the part after the last occurrence of the
separator (the whole string when the separator does not occur).  -/
def pySplitLast (s sep : String) : String :=
  match (s.splitOn sep).getLast? with
  | some t => t
  | none => s

/-- Python truthiness of an optional string: present and non-empty.  -/
def pyTruthy : Option String → Bool
  | some s => s ≠ ""
  | none => false

/-! ### Object store gateway — state model

`BlobStore` is the backend state visible to storage_utils.py: the set of
existing containers and an association list of blobs keyed by container
and blob name.  Writing conses the new version on the front, so a read
sees the most recent write.  -/

/-- Backend state of the blob service.  -/
structure BlobStore where
  containers : List String
  blobs : List (String × String × String)
  deriving DecidableEq

/-- Look up the current content stored under a container / blob name
pair; the most recent write wins.  -/
def findBlob : List (String × String × String) → String → String → Option String
  | [], _, _ => none
  | (c, n, v) :: rest, container, name =>
    if c = container ∧ n = name then some v else findBlob rest container name

/-- Read a blob from the store.  -/
def BlobStore.read (s : BlobStore) (container name : String) : Option String :=
  findBlob s.blobs container name

/-- Error message produced by the Azure blob SDK when the target
container does not exist; storage_utils.py matches on this phrase.  -/
def containerMissingMsg : String := "The specified container does not exist"

/-- Error message produced by the Azure blob SDK ResourceExistsError
when create_container hits an already existing container.  -/
def containerExistsMsg : String := "The specified container already exists."

/-- SDK primitive blob_client.upload_blob(content, overwrite=True):
fails when the container is missing, otherwise replaces any previous
blob under the same key and returns the client URL.  -/
def uploadBlobPrim (accountUrl : String) (s : BlobStore)
    (container name content : String) : Except String (String × BlobStore) :=
  if container ∈ s.containers then
    .ok (accountUrl ++ "/" ++ container ++ "/" ++ name,
         { s with blobs := (container, name, content) :: s.blobs })
  else
    .error containerMissingMsg

/-- SDK primitive container_client.create_container(): adds the
container, raising ResourceExistsError when it already exists.  -/
def createContainerPrim (s : BlobStore) (container : String) :
    Except String BlobStore :=
  if container ∈ s.containers then
    .error containerExistsMsg
  else
    .ok { s with containers := container :: s.containers }

/-- Embedding of upload_blob_with_container_creation (and of the
identically structured upload_blob_async): try the write; on a
container-missing failure create the container and retry once; surface
any other failure unchanged.

The flag `raceCreate` injects the race the specification discusses: when
it is true, a concurrent caller creates the container between the failed
first write and this call to create_container.  -/
def upload_blob_with_container_creation (accountUrl : String) (s : BlobStore)
    (raceCreate : Bool) (container name content : String) :
    Except String (String × BlobStore) :=
  match uploadBlobPrim accountUrl s container name content with
  | .ok r => .ok r
  | .error msg =>
    if strContains msg containerMissingMsg then
      let s₁ := if raceCreate then
                  { s with containers := container :: s.containers }
                else s
      match createContainerPrim s₁ container with
      | .error m => .error m
      | .ok s₂ =>
        match uploadBlobPrim accountUrl s₂ container name content with
        | .ok r => .ok r
        | .error m => .error m
    else
      .error msg

/-! ### Object store gateway — trace model

For counting how often the write is attempted we use a second, oracle
based view of the same control flow: the environment pre-decides the
result of the first upload_blob call, of the create_container call and
of the retry, and `gatewayRun` replays
upload_blob_with_container_creation against that oracle, reporting the
final result together with the number of upload_blob calls made.  -/

/-- Outcome the backend hands one upload_blob call.  -/
inductive PutResult where
  | ok (url : String)
  | err (msg : String)
  deriving DecidableEq

/-- Oracle for one run of the gateway: results of the first write, of
create_container (`none` means creation succeeded) and of the retry.  -/
structure GatewayTrace where
  firstPut : PutResult
  createResult : Option String
  retryPut : PutResult
  deriving DecidableEq

/-- Replay of upload_blob_with_container_creation against a
`GatewayTrace`; the second component counts upload_blob calls.  -/
def gatewayRun (t : GatewayTrace) : Except String String × Nat :=
  match t.firstPut with
  | .ok url => (.ok url, 1)
  | .err msg =>
    if strContains msg containerMissingMsg then
      match t.createResult with
      | some m => (.error m, 1)
      | none =>
        match t.retryPut with
        | .ok url => (.ok url, 2)
        | .err m => (.error m, 2)
    else
      (.error msg, 1)

/-! ### Batch upload scheduler — blueprints/arxiv/batch_upload.py

One article handed to the scheduler is the tuple
(article_metadata, identifier) built by parse_and_store_articles.  The
metadata dict only matters here as the serialized payload, so it is
carried as the string json.dumps would produce for it.  -/

/-- One element of articles_data: the serialized metadata payload and
the article identifier.  -/
structure ArticleData where
  metadata : String
  identifier : String
  deriving DecidableEq

/-- What the environment does to one record inside
upload_single_article: unpacking the tuple, json.dumps, or the awaited
upload_blob_async call can each raise, or the upload succeeds.  -/
inductive RecordEff where
  | destructureFail (msg : String)
  | serializeFail (msg : String)
  | uploadFail (msg : String)
  | uploadOk
  deriving DecidableEq

/-- Result dict built by upload_single_article: keys identifier, url,
status, and - only in the error branch - error.  -/
structure UploadOutcome where
  identifier : String
  url : String
  status : String
  error : Option String
  deriving DecidableEq

/-- Container used by the arXiv blueprint.  -/
def arxivContainer : String := "arxiv-data"

/-- Blob name derived in upload_single_article:
category/ProcessDate=date/articles/identifier.json.  -/
def articleBlobName (category process_date identifier : String) : String :=
  category ++ "/ProcessDate=" ++ process_date ++ "/articles/" ++ identifier ++ ".json"

/-- URL upload_blob_async returns for a successful write
(blob_client.url).  -/
def articleBlobUrl (accountUrl category process_date identifier : String) : String :=
  accountUrl ++ "/" ++ arxivContainer ++ "/" ++ articleBlobName category process_date identifier

/-- Embedding of upload_single_article: every exception in the body is
caught and turned into an error outcome; before the tuple is unpacked
the identifier variable still holds "unknown".  -/
def upload_single_article (accountUrl category process_date : String)
    (a : ArticleData) (eff : RecordEff) : UploadOutcome :=
  match eff with
  | .destructureFail m => ⟨"unknown", "", "error", some m⟩
  | .serializeFail m => ⟨a.identifier, "", "error", some m⟩
  | .uploadFail m => ⟨a.identifier, "", "error", some m⟩
  | .uploadOk =>
    ⟨a.identifier, articleBlobUrl accountUrl category process_date a.identifier,
     "success", none⟩

/-- Environment of one batch run: whether get_async_blob_service_client
raises, the account URL behind blob_client.url, and the per-record
effect, indexed by the position of the record in articles_data.  -/
structure BatchEnv where
  setupFail : Option String
  accountUrl : String
  effs : Nat → RecordEff

/-- The processed_results list: one outcome per input record, each
produced from that record alone.  The index argument tracks the
position of the head of the remaining list.  -/
def processedResultsAux (env : BatchEnv) (category process_date : String) :
    Nat → List ArticleData → List UploadOutcome
  | _, [] => []
  | i, a :: rest =>
    upload_single_article env.accountUrl category process_date a (env.effs i) ::
      processedResultsAux env category process_date (i + 1) rest

/-- The processed_results list of batch_upload_articles_async.  -/
def processedResults (env : BatchEnv) (category process_date : String)
    (articles : List ArticleData) : List UploadOutcome :=
  processedResultsAux env category process_date 0 articles

/-- Embedding of batch_upload_articles_async: on a batch-level failure
the outer handler returns the empty list; otherwise every record is
processed and the function returns the successful_uploads sub-list of
processed_results.  -/
def batch_upload_articles_async (env : BatchEnv)
    (process_date category : String) (articles : List ArticleData) :
    List UploadOutcome :=
  match env.setupFail with
  | some _ => []
  | none =>
    (processedResults env category process_date articles).filter
      (fun r => r.status == "success")

/-- Embedding of run_batch_upload_sync: a failure setting up the event
loop is swallowed and yields the empty list, otherwise the async batch
result is returned.  -/
def run_batch_upload_sync (loopFail : Option String) (env : BatchEnv)
    (process_date category : String) (articles : List ArticleData) :
    List UploadOutcome :=
  match loopFail with
  | some _ => []
  | none => batch_upload_articles_async env process_date category articles

/-! ### Semaphore discipline of upload_with_semaphore

upload_with_semaphore wraps each upload in `async with semaphore` where
the semaphore starts with max_concurrency permits.  The abstract state
below counts tasks that have not yet entered the critical section,
tasks inside it (in-flight uploads), and free permits; the two
transitions are entering (acquire a permit) and leaving (release it).  -/

/-- Abstract scheduler state: tasks not yet started, uploads in flight,
free semaphore permits.  -/
structure SemState where
  pending : Nat
  inFlight : Nat
  available : Nat
  deriving DecidableEq

/-- Initial state of one batch: every task pending, no upload running,
all max_concurrency permits free.  -/
def semInit (tasks limit : Nat) : SemState :=
  ⟨tasks, 0, limit⟩

/-- One scheduler transition: a pending task acquires a permit and its
upload goes in flight, or an in-flight upload finishes and releases its
permit.  -/
inductive SemStep : SemState → SemState → Prop where
  | acquire (s : SemState) (hp : 0 < s.pending) (ha : 0 < s.available) :
      SemStep s ⟨s.pending - 1, s.inFlight + 1, s.available - 1⟩
  | release (s : SemState) (hf : 0 < s.inFlight) :
      SemStep s ⟨s.pending, s.inFlight - 1, s.available + 1⟩

/-- States a batch run can reach from its initial state.  -/
def SemReachable (tasks limit : Nat) (s : SemState) : Prop :=
  Relation.ReflTransGen SemStep (semInit tasks limit) s

/-! ### Feed normalizer — blueprints/arxiv/functions.py

parse_and_store_articles walks feed.entries; for each entry it derives
an identifier from the guid (when it contains the arXiv OAI marker) or,
failing that, from the link (when it contains the abstract path
marker), and abandons the entry when neither yields a truthy value.
Optional feedparser attributes are modelled as `Option String`; Python
truthiness of both the attribute and the derived value is preserved.  -/

/-- Marker inside arXiv guids: oai prefix of the object identifier.  -/
def guidMarker : String := "oai:arXiv.org:"

/-- Marker inside arXiv links: the abstract path.  -/
def linkMarker : String := "arxiv.org/abs/"

/-- One feedparser entry, restricted to the attributes
parse_and_store_articles reads.  `authorNames` holds the name of each
element of entry.authors (absent when the element has no truthy name).  -/
structure FeedEntry where
  guid : Option String
  link : Option String
  title : Option String
  description : Option String
  summary : Option String
  author : Option String
  authorNames : List (Option String)
  arxiv_doi : Option String
  doi : Option String
  deriving DecidableEq

/-- The identifier derivation of parse_and_store_articles, lines
302-318: guid first, link as fallback, entry abandoned when the final
value is not truthy.  -/
def extractIdentifier (guid link : Option String) : Option String :=
  let i₁ : Option String :=
    if pyTruthy guid && strContains (guid.getD "") guidMarker then
      some (pySplitLast (guid.getD "") guidMarker)
    else none
  let i₂ : Option String :=
    if !(pyTruthy i₁) && pyTruthy link && strContains (link.getD "") linkMarker then
      some (pySplitLast (link.getD "") linkMarker)
    else i₁
  if pyTruthy i₂ then i₂ else none

/-- DOI extraction: arxiv_doi first, then doi, both under Python
truthiness.  -/
def extractDoi (e : FeedEntry) : Option String :=
  if pyTruthy e.arxiv_doi then e.arxiv_doi
  else if pyTruthy e.doi then e.doi
  else none

/-- Creator extraction: entry.author when truthy, otherwise the
comma-joined truthy names of entry.authors, otherwise absent.  -/
def extractCreator (e : FeedEntry) : Option String :=
  if pyTruthy e.author then e.author
  else if e.authorNames ≠ [] then
    let names := e.authorNames.filterMap
      (fun n => if pyTruthy n then some (n.getD "") else none)
    if names ≠ [] then some (String.intercalate ", " names) else none
  else none

/-- Description extraction: entry description, falling back to the
summary, defaulting to the empty string.  -/
def extractDescription (e : FeedEntry) : String :=
  if pyTruthy e.description then e.description.getD ""
  else e.summary.getD ""

/-- The article_metadata dict built for one entry.  -/
structure ArticleMetadata where
  identifier : String
  title : String
  link : String
  description : String
  creator : Option String
  doi : Option String
  deriving DecidableEq

/-- Normalization of one entry: `none` when the entry is abandoned for
lack of an identifier, otherwise the (metadata, identifier) pair
appended to articles_data.  -/
def parseEntry (e : FeedEntry) : Option (ArticleMetadata × String) :=
  match extractIdentifier e.guid e.link with
  | none => none
  | some id =>
    some ({ identifier := id
            title := e.title.getD ""
            link := e.link.getD ""
            description := extractDescription e
            creator := extractCreator e
            doi := extractDoi e }, id)

/-- The articles_data list parse_and_store_articles hands to the batch
upload: entries without a derivable identifier are filtered out.  -/
def parseEntries (es : List FeedEntry) : List (ArticleMetadata × String) :=
  es.filterMap parseEntry

/-! ### Simplification endpoint — blueprints/abstractParse/functions.py

simplify_article_description is a chain of guard clauses inside a
try/except whose handler answers 500.  The first statement of the try
is req.get_json(), which raises when the raw body is absent or not
parseable as JSON (and a truthy non-dict value would likewise raise at
the first attribute access), so that whole family of inputs lands in
the outer handler; a body that parses to a falsy value takes the 400
branch instead.  The two collaborator calls are oracles: the result of
read_article_metadata_from_url and of simplify_text_with_openai, each
`none` on failure (simplify_text_with_openai also returns no text when
the model answer is empty); both catch their own exceptions, so the
body parse is the only raising step the handler sees.  -/

/-- Parsed request body of the simplify endpoint.  -/
structure SimplifyBody where
  file_url : Option String
  deriving DecidableEq

/-- What req.get_json() does with the raw request body: raise (absent,
unparseable, or otherwise unusable body), produce a falsy value (JSON
null, empty object, ...), or produce a usable dict.  -/
inductive BodyParse where
  | parseError (msg : String)
  | falsy
  | parsed (b : SimplifyBody)
  deriving DecidableEq

/-- Collaborator results consulted by the handler.  -/
structure SimplifyEnv where
  readResult : Option ArticleMetadata
  modelResult : Option String

/-- HTTP response produced by the handler: status code, the stable
status field of the JSON payload, and the payload parts the tests care
about.  -/
structure HttpResponseModel where
  statusCode : Nat
  status : String
  message : Option String
  simplified : Option String
  article_metadata : Option ArticleMetadata
  deriving DecidableEq

/-- Error response helper: JSON with status error and a message.  -/
def errorResponse (code : Nat) (msg : String) : HttpResponseModel :=
  ⟨code, "error", some msg, none, none⟩

/-- Embedding of simplify_article_description, outer exception handler
included: a raising body parse falls through every guard into the
except block, which answers 500 with the exception text.  -/
def simplify_article_description (body : BodyParse)
    (env : SimplifyEnv) : HttpResponseModel :=
  match body with
  | .parseError msg => errorResponse 500 ("Internal server error: " ++ msg)
  | .falsy => errorResponse 400 "Request body is required"
  | .parsed b =>
    if !(pyTruthy b.file_url) then
      errorResponse 400 "file_url is required in the request body"
    else
      match env.readResult with
      | none =>
        errorResponse 404 "Failed to read article metadata from the provided URL"
      | some meta =>
        if meta.description = "" then
          errorResponse 400 "No description found in the article metadata"
        else
          match env.modelResult with
          | none =>
            errorResponse 500 "Failed to simplify the description using Azure OpenAI"
          | some simplified =>
            if simplified = "" then
              errorResponse 500 "Failed to simplify the description using Azure OpenAI"
            else
              ⟨200, "success", none, some simplified, some meta⟩

/-! ### Helper lemmas -/

/-- processed_results has one entry per input record (aux form).  -/
theorem length_processedResultsAux (env : BatchEnv) (cat pd : String) :
    ∀ (i : Nat) (l : List ArticleData),
      (processedResultsAux env cat pd i l).length = l.length := by
  intro i l
  induction l generalizing i with
  | nil => rfl
  | cons a rest ih => simp [processedResultsAux, ih]

/-- processed_results has one entry per input record.  -/
theorem length_processedResults (env : BatchEnv) (cat pd : String)
    (articles : List ArticleData) :
    (processedResults env cat pd articles).length = articles.length :=
  length_processedResultsAux env cat pd 0 articles

/-- Splitting the record list splits processed_results, shifting the
index base of the second part.  -/
theorem processedResultsAux_append (env : BatchEnv) (cat pd : String) :
    ∀ (l₁ l₂ : List ArticleData) (i : Nat),
      processedResultsAux env cat pd i (l₁ ++ l₂) =
        processedResultsAux env cat pd i l₁ ++
          processedResultsAux env cat pd (i + l₁.length) l₂ := by
  intro l₁
  induction l₁ with
  | nil => intro l₂ i; simp [processedResultsAux]
  | cons a rest ih =>
    intro l₂ i
    simp only [List.cons_append, processedResultsAux, List.length_cons, List.append_eq]
    rw [ih]
    have : i + 1 + rest.length = i + (rest.length + 1) := by omega
    rw [this]

/-- Every outcome in processed_results arises from
upload_single_article applied to one record and its own effect.  -/
theorem mem_processedResultsAux (env : BatchEnv) (cat pd : String) :
    ∀ (l : List ArticleData) (i : Nat) (o : UploadOutcome),
      o ∈ processedResultsAux env cat pd i l →
      ∃ a j, o = upload_single_article env.accountUrl cat pd a (env.effs j) := by
  intro l
  induction l with
  | nil => intro i o ho; cases ho
  | cons a rest ih =>
    intro i o ho
    rcases List.mem_cons.mp ho with h | h
    · exact ⟨a, i, h⟩
    · exact ih (i + 1) o h

/-- A record whose effect succeeds yields a success outcome.  -/
theorem upload_single_article_success (accountUrl cat pd : String)
    (a : ArticleData) :
    (upload_single_article accountUrl cat pd a .uploadOk).status = "success" := rfl

/-- A record whose effect fails yields an error outcome with an empty
url and a populated error detail.  -/
theorem upload_single_article_failure (accountUrl cat pd : String)
    (a : ArticleData) (eff : RecordEff) (h : eff ≠ .uploadOk) :
    (upload_single_article accountUrl cat pd a eff).status = "error" ∧
    (upload_single_article accountUrl cat pd a eff).url = "" ∧
    (upload_single_article accountUrl cat pd a eff).error.isSome = true := by
  cases eff with
  | destructureFail m => exact ⟨rfl, rfl, rfl⟩
  | serializeFail m => exact ⟨rfl, rfl, rfl⟩
  | uploadFail m => exact ⟨rfl, rfl, rfl⟩
  | uploadOk => exact absurd rfl h

/-- The blob URL of a stored article is never the empty string.  -/
theorem articleBlobUrl_ne_empty (accountUrl cat pd id : String) :
    articleBlobUrl accountUrl cat pd id ≠ "" := by
  intro h
  have hl := congrArg String.length h
  have hs : ("/" : String).length = 1 := rfl
  have h0 : ("" : String).length = 0 := rfl
  simp only [articleBlobUrl, arxivContainer, String.length_append, hs, h0] at hl
  omega

/-- When every effect in a contiguous index range succeeds, every
outcome of that segment is a success.  -/
theorem processedResultsAux_all_success (env : BatchEnv) (cat pd : String) :
    ∀ (l : List ArticleData) (i : Nat),
      (∀ j, i ≤ j → j < i + l.length → env.effs j = .uploadOk) →
      ∀ o ∈ processedResultsAux env cat pd i l, o.status = "success" := by
  intro l
  induction l with
  | nil => intro i _ o ho; cases ho
  | cons a rest ih =>
    intro i hok o ho
    rcases List.mem_cons.mp ho with h | h
    · have heff : env.effs i = .uploadOk := by
        apply hok i le_rfl; simp
      rw [h, heff]
      exact upload_single_article_success env.accountUrl cat pd a
    · refine ih (i + 1) ?_ o h
      intro j hj₁ hj₂
      apply hok j (by omega) (by simp at hj₂ ⊢; omega)

/-- In a list of all-success outcomes the success count is the length
and the error count is zero.  -/
theorem counts_of_all_success (l : List UploadOutcome)
    (h : ∀ o ∈ l, o.status = "success") :
    l.countP (fun o => o.status == "success") = l.length ∧
    l.countP (fun o => o.status == "error") = 0 := by
  induction l with
  | nil => simp
  | cons o rest ih =>
    have ho := h o (List.mem_cons_self o rest)
    have hrest := ih (fun o ho₂ => h o (List.mem_cons_of_mem _ ho₂))
    constructor
    · simp [List.countP_cons, ho, hrest.1]
    · simp [List.countP_cons, ho, hrest.2]

/-- Every transition preserves the sum of in-flight uploads and free
permits.  -/
theorem semStep_sum_eq {s t : SemState} (h : SemStep s t) :
    t.inFlight + t.available = s.inFlight + s.available := by
  cases h with
  | acquire hp ha => simp only []; omega
  | release hf => simp only []; omega

/-- The sum of in-flight uploads and free permits is pinned to the
concurrency limit in every reachable state.  -/
theorem semReachable_sum_eq (tasks limit : Nat) (s : SemState)
    (h : SemReachable tasks limit s) : s.inFlight + s.available = limit := by
  induction h with
  | refl => simp [semInit]
  | tail _ hstep ih => rw [semStep_sum_eq hstep]; exact ih

/-- Claim C1, as stated: the batch upload scheduler returns one outcome
per input record.  Refuted at a batch of one record whose upload fails:
batch_upload_articles_async returns the successful_uploads list only,
so the output is empty while the input has one record.  -/
theorem c1_counterexample :
    (batch_upload_articles_async
        ⟨none, "https://acct", fun _ => .uploadFail "boom"⟩
        "2024-01-01" "cs" [⟨"m", "2401.00001"⟩]).length ≠
      ([(⟨"m", "2401.00001"⟩ : ArticleData)]).length := by
  decide

/-- Claim C1, amended: for every input list and any concurrency limit,
the internal processed_results list of batch_upload_articles_async has
exactly one outcome per input record, but the value the scheduler
returns is the sub-list of successful outcomes, so its length is the
number of successes rather than the number of records.  -/
theorem c1_one_outcome_per_record (env : BatchEnv) (pd cat : String)
    (articles : List ArticleData) (h : env.setupFail = none) :
    (processedResults env cat pd articles).length = articles.length ∧
    (batch_upload_articles_async env pd cat articles).length =
      (processedResults env cat pd articles).countP
        (fun r => r.status == "success") := by
  refine ⟨length_processedResults env cat pd articles, ?_⟩
  simp only [batch_upload_articles_async, h]
  exact (List.countP_eq_length_filter _ _).symm

/-- Witness for C1 amended: a two-record batch with one failing record
has two processed outcomes and returns the one success.  -/
theorem c1_one_outcome_per_record_witness :
    (processedResults
        ⟨none, "https://acct", fun i => if i = 0 then .uploadOk else .uploadFail "x"⟩
        "cs" "2024-01-01" [⟨"m", "a"⟩, ⟨"m", "b"⟩]).length =
      ([(⟨"m", "a"⟩ : ArticleData), ⟨"m", "b"⟩]).length ∧
    (batch_upload_articles_async
        ⟨none, "https://acct", fun i => if i = 0 then .uploadOk else .uploadFail "x"⟩
        "2024-01-01" "cs" [⟨"m", "a"⟩, ⟨"m", "b"⟩]).length =
      (processedResults
          ⟨none, "https://acct", fun i => if i = 0 then .uploadOk else .uploadFail "x"⟩
          "cs" "2024-01-01" [⟨"m", "a"⟩, ⟨"m", "b"⟩]).countP
        (fun r => r.status == "success") :=
  c1_one_outcome_per_record
    ⟨none, "https://acct", fun i => if i = 0 then .uploadOk else .uploadFail "x"⟩
    "2024-01-01" "cs" [⟨"m", "a"⟩, ⟨"m", "b"⟩] rfl

/-- Claim C2: under the semaphore discipline of upload_with_semaphore,
no reachable state of a batch over any record list and any positive
concurrency limit has more than max_concurrency uploads in flight.  -/
theorem c2_bounded_concurrency (articles : List ArticleData)
    (limit : Nat) (_hpos : 1 ≤ limit) (s : SemState)
    (h : SemReachable articles.length limit s) : s.inFlight ≤ limit := by
  have := semReachable_sum_eq articles.length limit s h
  omega

/-- Witness for C2: one acquire step from the initial state of a
two-record fully serial batch leaves one upload in flight, within the
limit of one.  -/
theorem c2_bounded_concurrency_witness :
    (⟨1, 1, 0⟩ : SemState).inFlight ≤ 1 :=
  c2_bounded_concurrency [⟨"m", "a"⟩, ⟨"m", "b"⟩] 1 (by decide) ⟨1, 1, 0⟩
    (Relation.ReflTransGen.single
      (by exact SemStep.acquire (semInit 2 1) (by decide) (by decide)))

/-- Claim C3: when one record fails for any reason (a destructuring,
serialization or upload failure) while every other record uploads
cleanly, every record still gets exactly one processed outcome, exactly
one of them is an error, all others are successes, and the batch call
returns normally with the successes instead of raising.  -/
theorem c3_per_record_isolation (env : BatchEnv) (cat pd : String)
    (pre post : List ArticleData) (a : ArticleData)
    (hsetup : env.setupFail = none)
    (hfail : env.effs pre.length ≠ .uploadOk)
    (hok : ∀ j, j < pre.length + (post.length + 1) → j ≠ pre.length →
      env.effs j = .uploadOk) :
    (processedResults env cat pd (pre ++ a :: post)).length =
      pre.length + (post.length + 1) ∧
    (processedResults env cat pd (pre ++ a :: post)).countP
      (fun o => o.status == "error") = 1 ∧
    (processedResults env cat pd (pre ++ a :: post)).countP
      (fun o => o.status == "success") = pre.length + post.length ∧
    (batch_upload_articles_async env pd cat (pre ++ a :: post)).length =
      pre.length + post.length := by
  have hsplit : processedResults env cat pd (pre ++ a :: post) =
      processedResultsAux env cat pd 0 pre ++
        upload_single_article env.accountUrl cat pd a (env.effs pre.length) ::
          processedResultsAux env cat pd (pre.length + 1) post := by
    unfold processedResults
    rw [processedResultsAux_append env cat pd pre (a :: post) 0]
    simp [processedResultsAux]
  have hpre : ∀ o ∈ processedResultsAux env cat pd 0 pre,
      o.status = "success" := by
    apply processedResultsAux_all_success
    intro j hj₁ hj₂
    exact hok j (by omega) (by omega)
  have hpost : ∀ o ∈ processedResultsAux env cat pd (pre.length + 1) post,
      o.status = "success" := by
    apply processedResultsAux_all_success
    intro j hj₁ hj₂
    exact hok j (by omega) (by omega)
  have herr := upload_single_article_failure env.accountUrl cat pd a
    (env.effs pre.length) hfail
  have hcpre := counts_of_all_success _ hpre
  have hcpost := counts_of_all_success _ hpost
  have hlenpre := length_processedResultsAux env cat pd 0 pre
  have hlenpost := length_processedResultsAux env cat pd (pre.length + 1) post
  have hbeqe : ((upload_single_article env.accountUrl cat pd a
      (env.effs pre.length)).status == "error") = true := by
    rw [herr.1]; rfl
  have hbeqs : ((upload_single_article env.accountUrl cat pd a
      (env.effs pre.length)).status == "success") = false := by
    rw [herr.1]; rfl
  have hsucc : (processedResults env cat pd (pre ++ a :: post)).countP
      (fun o => o.status == "success") = pre.length + post.length := by
    rw [hsplit, List.countP_append, List.countP_cons, hbeqs]
    simp [hcpre.1, hcpost.1, hlenpre, hlenpost]
  refine ⟨?_, ?_, hsucc, ?_⟩
  · rw [hsplit]
    simp [hlenpre, hlenpost]
  · rw [hsplit, List.countP_append, List.countP_cons, hbeqe]
    simp [hcpre.2, hcpost.2]
  · simp only [batch_upload_articles_async, hsetup]
    rw [← List.countP_eq_length_filter]
    exact hsucc

/-- Witness for C3: three records, the middle one with a serialization
failure, give three processed outcomes, one error, two successes, and a
returned list of the two successes.  -/
theorem c3_per_record_isolation_witness :
    (processedResults
        ⟨none, "https://acct",
          fun j => if j = 1 then .serializeFail "unencodable field" else .uploadOk⟩
        "cs" "2024-01-01"
        ([⟨"m", "a"⟩] ++ (⟨"m", "b"⟩ : ArticleData) :: [⟨"m", "c"⟩])).length =
      ([(⟨"m", "a"⟩ : ArticleData)]).length +
        (([(⟨"m", "c"⟩ : ArticleData)]).length + 1) ∧
    (processedResults
        ⟨none, "https://acct",
          fun j => if j = 1 then .serializeFail "unencodable field" else .uploadOk⟩
        "cs" "2024-01-01"
        ([⟨"m", "a"⟩] ++ (⟨"m", "b"⟩ : ArticleData) :: [⟨"m", "c"⟩])).countP
      (fun o => o.status == "error") = 1 ∧
    (processedResults
        ⟨none, "https://acct",
          fun j => if j = 1 then .serializeFail "unencodable field" else .uploadOk⟩
        "cs" "2024-01-01"
        ([⟨"m", "a"⟩] ++ (⟨"m", "b"⟩ : ArticleData) :: [⟨"m", "c"⟩])).countP
      (fun o => o.status == "success") =
      ([(⟨"m", "a"⟩ : ArticleData)]).length + ([(⟨"m", "c"⟩ : ArticleData)]).length ∧
    (batch_upload_articles_async
        ⟨none, "https://acct",
          fun j => if j = 1 then .serializeFail "unencodable field" else .uploadOk⟩
        "2024-01-01" "cs"
        ([⟨"m", "a"⟩] ++ (⟨"m", "b"⟩ : ArticleData) :: [⟨"m", "c"⟩])).length =
      ([(⟨"m", "a"⟩ : ArticleData)]).length + ([(⟨"m", "c"⟩ : ArticleData)]).length :=
  c3_per_record_isolation
    ⟨none, "https://acct",
      fun j => if j = 1 then .serializeFail "unencodable field" else .uploadOk⟩
    "cs" "2024-01-01" [⟨"m", "a"⟩] [⟨"m", "c"⟩] ⟨"m", "b"⟩ rfl
    (by decide) (by decide)

/-- The container-missing message matches its own marker phrase.  -/
theorem strContains_missing_self :
    strContains containerMissingMsg containerMissingMsg = true := by decide

/-- Claim C4, as stated: refuted.  On an empty store, when a concurrent
caller creates the container between the failed first write and this
caller's create_container call, create_container raises
ResourceExistsError and the gateway surfaces it, so the upload fails
instead of succeeding: already-exists is treated as an error.  -/
theorem c4_counterexample :
    upload_blob_with_container_creation "https://acct" ⟨[], []⟩ true
      "arxiv-data" "k.json" "content" = .error containerExistsMsg := by
  rfl

/-- Claim C4, amended: when the write fails because the container is
missing, the gateway creates the container and retries, and without a
concurrent creator the retried write succeeds; but if a concurrent
caller created the container first, create_container raises
ResourceExistsError, which propagates to the caller and fails the
upload.  -/
theorem c4_container_creation (accountUrl : String) (s : BlobStore)
    (container name content : String) (hmiss : container ∉ s.containers) :
    (upload_blob_with_container_creation accountUrl s false container name content =
      .ok (accountUrl ++ "/" ++ container ++ "/" ++ name,
           ⟨container :: s.containers, (container, name, content) :: s.blobs⟩) ∧
     BlobStore.read ⟨container :: s.containers, (container, name, content) :: s.blobs⟩
       container name = some content) ∧
    upload_blob_with_container_creation accountUrl s true container name content =
      .error containerExistsMsg := by
  refine ⟨⟨?_, ?_⟩, ?_⟩
  · simp [upload_blob_with_container_creation, uploadBlobPrim, createContainerPrim,
      hmiss, strContains_missing_self]
  · simp [BlobStore.read, findBlob]
  · simp [upload_blob_with_container_creation, uploadBlobPrim, createContainerPrim,
      hmiss, strContains_missing_self]

/-- Witness for C4 amended: on an empty store the race-free upload of
one article creates the container and lands the blob, while the raced
upload fails with the already-exists error.  -/
theorem c4_container_creation_witness :
    (upload_blob_with_container_creation "https://acct" ⟨[], []⟩ false
        "arxiv-data" "k.json" "content" =
      .ok ("https://acct" ++ "/" ++ "arxiv-data" ++ "/" ++ "k.json",
           ⟨"arxiv-data" :: ([] : List String),
            ("arxiv-data", "k.json", "content") :: ([] : List (String × String × String))⟩) ∧
     BlobStore.read
       ⟨"arxiv-data" :: ([] : List String),
        ("arxiv-data", "k.json", "content") :: ([] : List (String × String × String))⟩
       "arxiv-data" "k.json" = some "content") ∧
    upload_blob_with_container_creation "https://acct" ⟨[], []⟩ true
      "arxiv-data" "k.json" "content" = .error containerExistsMsg :=
  c4_container_creation "https://acct" ⟨[], []⟩ "arxiv-data" "k.json" "content"
    (by decide)

/-- Claim C5: the gateway attempts the write at most twice; a second
attempt happens exactly when the first failed with the
container-missing message and the creation succeeded; any failure whose
message is not the container-missing one is surfaced unmodified with no
retry, and a failure of the single retry is surfaced unmodified with no
further attempt.  -/
theorem c5_retry_at_most_once (t : GatewayTrace) :
    (gatewayRun t).2 ≤ 2 ∧
    ((gatewayRun t).2 = 2 → ∃ m, t.firstPut = .err m ∧
      strContains m containerMissingMsg = true ∧ t.createResult = none) ∧
    (∀ m, t.firstPut = .err m → strContains m containerMissingMsg = false →
      gatewayRun t = (.error m, 1)) ∧
    (∀ m m₂, t.firstPut = .err m → strContains m containerMissingMsg = true →
      t.createResult = none → t.retryPut = .err m₂ →
      gatewayRun t = (.error m₂, 2)) := by
  obtain ⟨fp, cr, rp⟩ := t
  cases fp with
  | ok url => simp [gatewayRun]
  | err msg =>
    by_cases hc : strContains msg containerMissingMsg = true <;>
      cases cr <;> cases rp <;> simp [gatewayRun, hc]

/-- Witness for C5: a first write failing with the container-missing
message, a successful creation, and a retry failing with a fresh
message end in that fresh message after exactly two write attempts.  -/
theorem c5_retry_at_most_once_witness :
    gatewayRun ⟨.err containerMissingMsg, none, .err "timeout"⟩ =
      (.error "timeout", 2) :=
  (c5_retry_at_most_once ⟨.err containerMissingMsg, none, .err "timeout"⟩).2.2.2
    containerMissingMsg "timeout" rfl strContains_missing_self rfl rfl

/-- Identifier a guid yields per the specification: the part after the
OAI marker, when the marker occurs and that part is non-empty.  -/
def guidDerived (guid : Option String) : Option String :=
  match guid with
  | none => none
  | some g =>
    if strContains g guidMarker && !(pySplitLast g guidMarker == "") then
      some (pySplitLast g guidMarker)
    else none

/-- Identifier a link yields per the specification: the trailing path
segment after the abstract marker, when the marker occurs and that
segment is non-empty.  -/
def linkDerived (link : Option String) : Option String :=
  match link with
  | none => none
  | some l =>
    if strContains l linkMarker && !(pySplitLast l linkMarker == "") then
      some (pySplitLast l linkMarker)
    else none

/-- With no guid the extraction is exactly the link derivation.  -/
theorem extract_none_link (link : Option String) :
    extractIdentifier none link = linkDerived link := by
  cases link with
  | none => rfl
  | some l =>
    by_cases hl : l = ""
    · subst hl
      have h0 : strContains "" linkMarker = false := by decide
      simp [extractIdentifier, linkDerived, pyTruthy, h0]
    · by_cases hcl : strContains l linkMarker = true
      · by_cases hlt : pySplitLast l linkMarker = ""
        · simp [extractIdentifier, linkDerived, pyTruthy, hl, hcl, hlt]
        · simp [extractIdentifier, linkDerived, pyTruthy, hl, hcl, hlt]
      · simp [extractIdentifier, linkDerived, pyTruthy, hl, hcl]

/-- The identifier extraction of parse_and_store_articles equals the
guid derivation with the link derivation as fallback.  -/
theorem extract_characterization (guid link : Option String) :
    extractIdentifier guid link =
      Option.orElse (guidDerived guid) (fun _ => linkDerived link) := by
  cases guid with
  | none => simpa [guidDerived, Option.orElse] using extract_none_link link
  | some g =>
    by_cases hg : g = ""
    · subst hg
      have h0 : strContains "" guidMarker = false := by decide
      have hlhs : extractIdentifier (some "") link = extractIdentifier none link := by
        simp [extractIdentifier, pyTruthy]
      rw [hlhs, extract_none_link]
      simp [guidDerived, h0, Option.orElse]
    · by_cases hcg : strContains g guidMarker = true
      · by_cases hgt : pySplitLast g guidMarker = ""
        · have hlhs : extractIdentifier (some g) link =
              extractIdentifier none link := by
            cases link with
            | none => simp [extractIdentifier, pyTruthy, hg, hcg, hgt]
            | some l =>
              by_cases hl : l = ""
              · subst hl
                have h0 : strContains "" linkMarker = false := by decide
                simp [extractIdentifier, pyTruthy, hg, hcg, hgt, h0]
              · by_cases hcl : strContains l linkMarker = true
                · simp [extractIdentifier, pyTruthy, hg, hcg, hgt, hl, hcl]
                · simp [extractIdentifier, pyTruthy, hg, hcg, hgt, hl, hcl]
          rw [hlhs, extract_none_link]
          simp [guidDerived, hcg, hgt, Option.orElse]
        · simp [extractIdentifier, guidDerived, pyTruthy, hg, hcg, hgt, Option.orElse]
      · have hlhs : extractIdentifier (some g) link =
            extractIdentifier none link := by
          simp [extractIdentifier, pyTruthy, hg, hcg]
        rw [hlhs, extract_none_link]
        simp [guidDerived, hcg, Option.orElse]

/-- Claim C6: the normalizer derives the identifier from the guid when
the guid yields a non-empty namespaced identifier - also when a link is
present - otherwise from the link's trailing abstract-path segment, and
an entry yielding neither is dropped from the normalizer output
entirely, leaving the surrounding entries untouched.  -/
theorem c6_identifier_precedence :
    (∀ guid link, extractIdentifier guid link =
      Option.orElse (guidDerived guid) (fun _ => linkDerived link)) ∧
    (∀ (e : FeedEntry) (es₁ es₂ : List FeedEntry),
      extractIdentifier e.guid e.link = none →
      parseEntries (es₁ ++ e :: es₂) = parseEntries (es₁ ++ es₂)) := by
  refine ⟨extract_characterization, ?_⟩
  intro e es₁ es₂ h
  have hnone : parseEntry e = none := by simp [parseEntry, h]
  simp [parseEntries, List.filterMap_append, List.filterMap_cons, hnone]

/-- Witness for C6: an entry with neither guid nor link vanishes from
the output between two surviving entries.  -/
theorem c6_identifier_precedence_witness :
    parseEntries
        ([⟨some "oai:arXiv.org:2401.00001", none, none, none, none, none, [], none, none⟩] ++
          (⟨none, none, none, none, none, none, [], none, none⟩ : FeedEntry) ::
            [⟨none, some "https://arxiv.org/abs/2401.00002", none, none, none, none, [], none, none⟩]) =
      parseEntries
        ([⟨some "oai:arXiv.org:2401.00001", none, none, none, none, none, [], none, none⟩] ++
          [⟨none, some "https://arxiv.org/abs/2401.00002", none, none, none, none, [], none, none⟩]) :=
  c6_identifier_precedence.2
    ⟨none, none, none, none, none, none, [], none, none⟩
    [⟨some "oai:arXiv.org:2401.00001", none, none, none, none, none, [], none, none⟩]
    [⟨none, some "https://arxiv.org/abs/2401.00002", none, none, none, none, [], none, none⟩]
    rfl

/-- Claim C7: the storage key of a record is the deterministic
C/ProcessDate=D/articles/I.json function of category, process date and
identifier; uploading the same record twice against the same
destination prefix writes to that same key and address both times, and
after the second upload a read of the key returns only the second
content.  -/
theorem c7_deterministic_key_overwrite (accountUrl cat pd id c₁ c₂ : String)
    (s : BlobStore) (h : arxivContainer ∈ s.containers) :
    ∃ s₁ s₂,
      upload_blob_with_container_creation accountUrl s false arxivContainer
          (articleBlobName cat pd id) c₁ =
        .ok (articleBlobUrl accountUrl cat pd id, s₁) ∧
      upload_blob_with_container_creation accountUrl s₁ false arxivContainer
          (articleBlobName cat pd id) c₂ =
        .ok (articleBlobUrl accountUrl cat pd id, s₂) ∧
      s₂.read arxivContainer (articleBlobName cat pd id) = some c₂ ∧
      articleBlobName cat pd id =
        cat ++ "/ProcessDate=" ++ pd ++ "/articles/" ++ id ++ ".json" := by
  refine ⟨{ s with blobs := (arxivContainer, articleBlobName cat pd id, c₁) :: s.blobs },
          { s with blobs := (arxivContainer, articleBlobName cat pd id, c₂) ::
              (arxivContainer, articleBlobName cat pd id, c₁) :: s.blobs },
          ?_, ?_, ?_, rfl⟩
  · simp [upload_blob_with_container_creation, uploadBlobPrim, h, articleBlobUrl]
  · simp [upload_blob_with_container_creation, uploadBlobPrim, h, articleBlobUrl]
  · simp [BlobStore.read, findBlob]

/-- Witness for C7: a double upload of one article against a store
holding the container lands the latest content under the derived key.  -/
theorem c7_deterministic_key_overwrite_witness :
    ∃ s₁ s₂,
      upload_blob_with_container_creation "https://acct" ⟨["arxiv-data"], []⟩ false
          arxivContainer (articleBlobName "cs" "2024-01-01" "2401.00001") "v1" =
        .ok (articleBlobUrl "https://acct" "cs" "2024-01-01" "2401.00001", s₁) ∧
      upload_blob_with_container_creation "https://acct" s₁ false
          arxivContainer (articleBlobName "cs" "2024-01-01" "2401.00001") "v2" =
        .ok (articleBlobUrl "https://acct" "cs" "2024-01-01" "2401.00001", s₂) ∧
      s₂.read arxivContainer (articleBlobName "cs" "2024-01-01" "2401.00001") =
        some "v2" ∧
      articleBlobName "cs" "2024-01-01" "2401.00001" =
        "cs" ++ "/ProcessDate=" ++ "2024-01-01" ++ "/articles/" ++ "2401.00001" ++ ".json" :=
  c7_deterministic_key_overwrite "https://acct" "cs" "2024-01-01" "2401.00001"
    "v1" "v2" ⟨["arxiv-data"], []⟩ (by decide)

/-- Claim C8: every outcome the scheduler produces populates exactly
the field its status calls for - a success carries a non-empty storage
address and no error detail, an error carries an error detail and an
empty address.  -/
theorem c8_outcome_exclusivity (env : BatchEnv) (cat pd : String)
    (articles : List ArticleData) (o : UploadOutcome)
    (ho : o ∈ processedResults env cat pd articles) :
    (o.status = "success" ∧ o.url ≠ "" ∧ o.error = none) ∨
    (o.status = "error" ∧ o.url = "" ∧ o.error.isSome = true) := by
  obtain ⟨a, j, rfl⟩ := mem_processedResultsAux env cat pd articles 0 o ho
  cases heff : env.effs j with
  | uploadOk =>
    left
    exact ⟨rfl, articleBlobUrl_ne_empty env.accountUrl cat pd a.identifier, rfl⟩
  | destructureFail m => right; exact ⟨rfl, rfl, rfl⟩
  | serializeFail m => right; exact ⟨rfl, rfl, rfl⟩
  | uploadFail m => right; exact ⟨rfl, rfl, rfl⟩

/-- Witness for C8: the outcome of a clean single-record batch is a
success with an address and no error detail.  -/
theorem c8_outcome_exclusivity_witness :
    ((upload_single_article "https://acct" "cs" "2024-01-01" ⟨"m", "x"⟩ .uploadOk).status = "success" ∧
     (upload_single_article "https://acct" "cs" "2024-01-01" ⟨"m", "x"⟩ .uploadOk).url ≠ "" ∧
     (upload_single_article "https://acct" "cs" "2024-01-01" ⟨"m", "x"⟩ .uploadOk).error = none) ∨
    ((upload_single_article "https://acct" "cs" "2024-01-01" ⟨"m", "x"⟩ .uploadOk).status = "error" ∧
     (upload_single_article "https://acct" "cs" "2024-01-01" ⟨"m", "x"⟩ .uploadOk).url = "" ∧
     (upload_single_article "https://acct" "cs" "2024-01-01" ⟨"m", "x"⟩ .uploadOk).error.isSome = true) :=
  c8_outcome_exclusivity ⟨none, "https://acct", fun _ => .uploadOk⟩ "cs" "2024-01-01"
    [⟨"m", "x"⟩]
    (upload_single_article "https://acct" "cs" "2024-01-01" ⟨"m", "x"⟩ .uploadOk)
    (by decide)

/-- Claim C9, as stated: refuted.  A request whose body is missing
makes req.get_json() raise, and the outer exception handler answers
500, not the claimed 400: the missing-body case is a 500-class
response.  -/
theorem c9_missing_body_counterexample :
    (simplify_article_description
        (.parseError "ValueError: HTTP request does not contain valid JSON data")
        ⟨none, none⟩).statusCode = 500 ∧
    (simplify_article_description
        (.parseError "ValueError: HTTP request does not contain valid JSON data")
        ⟨none, none⟩).statusCode ≠ 400 := by
  exact ⟨rfl, by decide⟩

/-- Claim C9, amended: a body that parses to a falsy value, a missing
file_url and a missing stored description each give 400 with status
error, an unreadable stored object gives 404, a failed or empty model
call gives 500, and a well-formed run gives 200 with the simplified
description and the metadata; but an absent or unparseable request
body raises in req.get_json() and is answered by the outer handler
with a 500-class error response.  -/
theorem c9_simplify_status_codes :
    (∀ (env : SimplifyEnv) (msg : String),
      simplify_article_description (.parseError msg) env =
        errorResponse 500 ("Internal server error: " ++ msg)) ∧
    (∀ env : SimplifyEnv, simplify_article_description .falsy env =
      errorResponse 400 "Request body is required") ∧
    (∀ (env : SimplifyEnv) (b : SimplifyBody), pyTruthy b.file_url = false →
      simplify_article_description (.parsed b) env =
        errorResponse 400 "file_url is required in the request body") ∧
    (∀ (b : SimplifyBody) (mr : Option String), pyTruthy b.file_url = true →
      simplify_article_description (.parsed b) ⟨none, mr⟩ =
        errorResponse 404 "Failed to read article metadata from the provided URL") ∧
    (∀ (b : SimplifyBody) (meta : ArticleMetadata) (mr : Option String),
      pyTruthy b.file_url = true → meta.description = "" →
      simplify_article_description (.parsed b) ⟨some meta, mr⟩ =
        errorResponse 400 "No description found in the article metadata") ∧
    (∀ (b : SimplifyBody) (meta : ArticleMetadata),
      pyTruthy b.file_url = true → meta.description ≠ "" →
      simplify_article_description (.parsed b) ⟨some meta, none⟩ =
        errorResponse 500 "Failed to simplify the description using Azure OpenAI" ∧
      simplify_article_description (.parsed b) ⟨some meta, some ""⟩ =
        errorResponse 500 "Failed to simplify the description using Azure OpenAI") ∧
    (∀ (b : SimplifyBody) (meta : ArticleMetadata) (st : String),
      pyTruthy b.file_url = true → meta.description ≠ "" → st ≠ "" →
      simplify_article_description (.parsed b) ⟨some meta, some st⟩ =
        ⟨200, "success", none, some st, some meta⟩) := by
  refine ⟨fun env msg => rfl, fun env => rfl, ?_, ?_, ?_, ?_, ?_⟩ <;>
    intros <;> simp_all [simplify_article_description, errorResponse]

/-- Witness for C9 amended: a well-formed request over readable
metadata and a non-empty model answer yields the 200 success payload.  -/
theorem c9_simplify_status_codes_witness :
    simplify_article_description (.parsed ⟨some "https://acct/arxiv-data/f.json"⟩)
        ⟨some ⟨"2401.00001", "t", "l", "abstract text", none, none⟩, some "plain text"⟩ =
      ⟨200, "success", none, some "plain text",
       some ⟨"2401.00001", "t", "l", "abstract text", none, none⟩⟩ :=
  c9_simplify_status_codes.2.2.2.2.2.2
    ⟨some "https://acct/arxiv-data/f.json"⟩
    ⟨"2401.00001", "t", "l", "abstract text", none, none⟩
    "plain text" (by decide) (by decide) (by decide)

/-- Claim C10: a batch-level failure (client construction or event-loop
setup) is swallowed by both entry points, which return the empty list,
so the caller cannot tell a total batch failure from an empty input.  -/
theorem c10_batch_failure_swallowed (env : BatchEnv) (pd cat : String)
    (articles : List ArticleData) (m : String) (h : env.setupFail = some m) :
    batch_upload_articles_async env pd cat articles = [] ∧
    run_batch_upload_sync (some m) env pd cat articles = [] ∧
    run_batch_upload_sync none env pd cat articles = [] ∧
    (∀ env₂ : BatchEnv, batch_upload_articles_async env pd cat articles =
      batch_upload_articles_async env₂ pd cat []) := by
  have hb : batch_upload_articles_async env pd cat articles = [] := by
    simp [batch_upload_articles_async, h]
  refine ⟨hb, rfl, ?_, ?_⟩
  · simp [run_batch_upload_sync, hb]
  · intro env₂
    rw [hb]
    cases h₂ : env₂.setupFail with
    | some m₂ => simp [batch_upload_articles_async, h₂]
    | none =>
      simp [batch_upload_articles_async, h₂, processedResults, processedResultsAux]

/-- Witness for C10: a failing client construction over a non-empty
batch returns the empty list from both entry points and matches the
empty-input result.  -/
theorem c10_batch_failure_swallowed_witness :
    batch_upload_articles_async ⟨some "boom", "https://acct", fun _ => .uploadOk⟩
      "2024-01-01" "cs" [⟨"m", "x"⟩] = [] ∧
    run_batch_upload_sync (some "boom")
      ⟨some "boom", "https://acct", fun _ => .uploadOk⟩
      "2024-01-01" "cs" [⟨"m", "x"⟩] = [] ∧
    run_batch_upload_sync none ⟨some "boom", "https://acct", fun _ => .uploadOk⟩
      "2024-01-01" "cs" [⟨"m", "x"⟩] = [] ∧
    (∀ env₂ : BatchEnv,
      batch_upload_articles_async ⟨some "boom", "https://acct", fun _ => .uploadOk⟩
        "2024-01-01" "cs" [⟨"m", "x"⟩] =
      batch_upload_articles_async env₂ "2024-01-01" "cs" []) :=
  c10_batch_failure_swallowed ⟨some "boom", "https://acct", fun _ => .uploadOk⟩
    "2024-01-01" "cs" [⟨"m", "x"⟩] "boom" rfl

end DailyTech
